import Mathlib

/-!
# FinNepal ERP front-end: shallow embedding and verification

This file embeds the data-handling logic of the FinNepal-ERP React front-end
(`src/pages/Accounting.tsx`, `src/pages/Sales.tsx`, `src/pages/Dashboard.tsx`,
`src/components/auth/PrivateRoute.tsx`, `src/utils/excelGenerator.ts`) in Lean 4
and proves the spec's claims about it.

Modelling conventions:
* JS numbers that hold monetary amounts, quantities and rates are modelled as `Rat`.
* JS strings are `String`; a possibly-`undefined`/`null` value is `Option _`.
* The i18next translation function `t` is an opaque `String → String` carried in
  component state.
* The Firestore backend is a record of typed document lists; `getDocs` of a
  `query(collection, where('tenantId','==',tid))` is list filtering on the
  `tenantId` field; `addDoc` appends a document.  A backend call that may fail
  (the awaited promise rejecting) is modelled by passing the call's outcome as an
  explicit `Except` argument to the handler.
* React `useState` setters are modelled by returning the updated component-state
  record; `console.error(msg, e)` is modelled by returning the list of logged
  `(msg, e)` pairs; each network request issued is recorded in a returned list.
-/

namespace FinNepal

/-- The i18next translation function `t`. -/
abbrev Tr := String → String

/-- The authenticated user provided by `useAuth()`.  `tenantId` is an optional
field on the user object (`user.tenantId` may be `undefined`). -/
structure User where
  uid : String
  tenantId : Option String
deriving DecidableEq, Repr

/-! ## Document types (Accounting.tsx lines 9–31, Sales.tsx interfaces) -/

/-- `LedgerEntry` (Accounting.tsx lines 9–18).  `id` is the Firestore document
id; `createdAt` (a JS `Date`) is a timestamp. -/
structure LedgerEntry where
  id : String
  date : String
  account : String
  description : String
  debit : Rat
  credit : Rat
  tenantId : String
  createdAt : Nat
deriving DecidableEq, Repr

/-- One line of a journal entry (Accounting.tsx lines 24–28). -/
structure JournalLine where
  account : String
  debit : Rat
  credit : Rat
deriving DecidableEq, Repr

/-- `JournalEntry` (Accounting.tsx lines 20–31). -/
structure JournalEntry where
  id : String
  date : String
  description : String
  entries : List JournalLine
  tenantId : String
  createdAt : Nat
deriving DecidableEq, Repr

/-- `InvoiceItem` (Sales.tsx lines 164–169). -/
structure InvoiceItem where
  description : String
  quantity : Rat
  rate : Rat
  amount : Rat
deriving DecidableEq, Repr

/-- `Invoice` (Sales.tsx lines 171–180) as stored/fetched. -/
structure Invoice where
  id : String
  customerName : String
  date : String
  items : List InvoiceItem
  totalAmount : Rat
  status : String
  tenantId : String
  createdAt : Nat
deriving DecidableEq, Repr

/-- The Firestore backend: the three shared collections the pages touch. -/
structure Backend where
  ledgerEntries : List LedgerEntry
  journalEntries : List JournalEntry
  invoices : List Invoice
deriving DecidableEq, Repr

/-! ## Accounting component state (Accounting.tsx lines 33–51) -/

/-- The ledger-entry form state (Accounting.tsx lines 41–47). -/
structure FormData where
  date : String
  account : String
  description : String
  debit : Rat
  credit : Rat
deriving DecidableEq, Repr

/-- The export date range (Accounting.tsx lines 48–51).  The source fields are
named `from`/`to`; `from` is a Lean keyword, hence `fromDate`/`toDate`. -/
structure DateRange where
  fromDate : String
  toDate : String
deriving DecidableEq, Repr

/-- The `Accounting` component's state. -/
structure AccState where
  t : Tr
  user : Option User
  activeTab : String
  ledgerEntries : List LedgerEntry
  journalEntries : List JournalEntry
  loading : Bool
  showForm : Bool
  formData : FormData
  dateRange : DateRange

/-- A network request issued against the Firestore SDK. -/
inductive Request where
  /-- `getDocs(query(collection(db, coll), where('tenantId', '==', tid)))` -/
  | getDocsByTenant (coll : String) (tid : String)
  /-- `addDoc(collection(db, coll), data)` -/
  | addDocTo (coll : String)
deriving DecidableEq, Repr

/-! ## PrivateRoute (src/components/auth/PrivateRoute.tsx lines 9–26) -/

/-- What `PrivateRoute` renders. -/
inductive RouteView where
  /-- the full-screen loading spinner -/
  | spinner
  /-- `<Navigate to=.. replace />` -/
  | redirect (dest : String) (replace : Bool)
  /-- the protected `children` -/
  | child
deriving DecidableEq, Repr

/-- `PrivateRoute` (PrivateRoute.tsx lines 9–26): spinner while `loading`,
replace-redirect to `/login` when there is no user, otherwise the children. -/
def PrivateRoute (loading : Bool) (user : Option User) : RouteView :=
  if loading then
    .spinner
  else if user = none then
    .redirect "/login" true
  else
    .child

/-! ## Dashboard (src/pages/Dashboard.tsx) -/

/-- One row of `monthlyData` (Dashboard.tsx lines 15–22). -/
structure MonthRow where
  month : String
  income : Int
  expenses : Int
deriving DecidableEq, Repr

/-- One row of `expenseData` (Dashboard.tsx lines 24–29). -/
structure NameValue where
  name : String
  value : Int
deriving DecidableEq, Repr

/-- `monthlyData` (Dashboard.tsx lines 15–22): a module-level constant. -/
def monthlyData : List MonthRow :=
  [⟨"Jan", 4000, 2400⟩, ⟨"Feb", 3000, 1398⟩, ⟨"Mar", 2000, 9800⟩,
   ⟨"Apr", 2780, 3908⟩, ⟨"May", 1890, 4800⟩, ⟨"Jun", 2390, 3800⟩]

/-- `expenseData` (Dashboard.tsx lines 24–29): a module-level constant. -/
def expenseData : List NameValue :=
  [⟨"Rent", 4000⟩, ⟨"Salaries", 3000⟩, ⟨"Utilities", 2000⟩, ⟨"Supplies", 1000⟩]

/-- The data the Dashboard page renders. -/
structure DashView where
  welcome : String
  revenueStat : String
  expensesStat : String
  profitStat : String
  cashFlowStat : String
  monthlySummaryChart : List MonthRow
  incomeVsExpensesChart : List MonthRow
  expenseCategoriesChart : List NameValue
deriving DecidableEq, Repr

/-- The `Dashboard` component's render (Dashboard.tsx lines 31–156).  The
component issues no Firestore query: the `db` parameter is the backend state
that would be reachable through the SDK, and the body never reads it; the
headline stats are string literals and the charts are fed the module constants
`monthlyData` and `expenseData`. -/
def dashboardView (_db : Backend) (tr : Tr) : DashView :=
  { welcome := tr "dashboard.welcome"
    revenueStat := "₹25,000"
    expensesStat := "₹15,000"
    profitStat := "₹10,000"
    cashFlowStat := "₹5,000"
    monthlySummaryChart := monthlyData
    incomeVsExpensesChart := monthlyData
    expenseCategoriesChart := expenseData }

/-! ## Number rendering

`toFixed2` models ECMAScript `Number.prototype.toFixed(2)` on exact rationals:
for `x < 0` it is `"-"` prepended to the rendering of `-x`; otherwise the
integer `n` nearest to `x * 100` (ties pick the larger `n`) is printed with two
decimal places.  `jsNumToString` models how a JS number literal renders when
interpolated into a template literal (shortest decimal expansion). -/

/-- Two-decimal rendering of a nonnegative rational, per the `toFixed` spec. -/
def toFixed2Abs (q : Rat) : String :=
  let n : Nat := (Int.floor (q * 100 + 1/2)).toNat
  let frac := n % 100
  toString (n / 100) ++ "." ++ (if frac < 10 then "0" else "") ++ toString frac

/-- `x.toFixed(2)` for a JS number `x`, on exact rationals. -/
def toFixed2 (q : Rat) : String :=
  if q < 0 then "-" ++ toFixed2Abs (-q) else toFixed2Abs q

/-- Smallest `k ≤ fuel` with `den ∣ 10 ^ k` (the denominators of all numeric
literals in the source divide `100`, so `fuel = 6` always suffices). -/
def decExp (den : Nat) : Nat → Nat
  | 0 => 0
  | fuel + 1 => if den ∣ 10 ^ (6 - (fuel + 1)) then 6 - (fuel + 1) else decExp den fuel

/-- How a JS number renders inside a template literal: the shortest decimal
expansion (`2.0` renders as `"2"`, `1.5` as `"1.5"`, `0.35` as `"0.35"`). -/
def jsNumToString (q : Rat) : String :=
  let sign := if q < 0 then "-" else ""
  let a := |q|
  let k := decExp a.den 6
  let digits : Nat := (Int.floor (a * 10 ^ k)).toNat
  if k = 0 then
    sign ++ toString digits
  else
    let base := 10 ^ k
    let frac := digits % base
    let fracStr := toString frac
    let pad := String.mk (List.replicate (k - fracStr.length) '0')
    sign ++ toString (digits / base) ++ "." ++ pad ++ fracStr

/-! ## Accounting data handlers (Accounting.tsx lines 53–121)

Each handler takes the outcome of its awaited SDK call as an explicit
`Except String _` argument (`.error e` models the promise rejecting with `e`)
and returns the new component state together with the `console.error` log pairs
and the list of requests it issued. -/

/-- `fetchLedgerEntries` (Accounting.tsx lines 53–67).  Returns early when
`!user || !user.tenantId` (no user, the field `undefined`, or the empty
string); otherwise issues one `getDocs` on `ledgerEntries` filtered by
`where('tenantId', '==', user.tenantId)` and stores the result, or logs the
error and leaves the state unchanged. -/
def fetchLedgerEntries (outcome : Except String Unit) (db : Backend)
    (st : AccState) : AccState × List (String × String) × List Request :=
  match st.user with
  | none => (st, [], [])
  | some u =>
    match u.tenantId with
    | none => (st, [], [])
    | some tid =>
      if tid = "" then (st, [], [])
      else
        match outcome with
        | .error e =>
            (st, [("Error fetching ledger entries:", e)],
             [.getDocsByTenant "ledgerEntries" tid])
        | .ok _ =>
            ({ st with
                ledgerEntries := db.ledgerEntries.filter (fun d => d.tenantId = tid) },
             [], [.getDocsByTenant "ledgerEntries" tid])

/-- `fetchJournalEntries` (Accounting.tsx lines 69–83): same shape on the
`journalEntries` collection. -/
def fetchJournalEntries (outcome : Except String Unit) (db : Backend)
    (st : AccState) : AccState × List (String × String) × List Request :=
  match st.user with
  | none => (st, [], [])
  | some u =>
    match u.tenantId with
    | none => (st, [], [])
    | some tid =>
      if tid = "" then (st, [], [])
      else
        match outcome with
        | .error e =>
            (st, [("Error fetching journal entries:", e)],
             [.getDocsByTenant "journalEntries" tid])
        | .ok _ =>
            ({ st with
                journalEntries := db.journalEntries.filter (fun d => d.tenantId = tid) },
             [], [.getDocsByTenant "journalEntries" tid])

/-- `handleSubmit` (Accounting.tsx lines 91–121).  Returns early when
`!user || !user.tenantId`; otherwise calls `addDoc` on `ledgerEntries` with
`{...formData, tenantId, createdAt}` (the successful outcome carries the
generated document id), appends the new entry to `ledgerEntries` state, resets
the form and hides it; on failure it logs and leaves everything unchanged.
`now` is the timestamp `new Date()` takes. -/
def handleSubmit (outcome : Except String String) (now : Nat) (db : Backend)
    (st : AccState) :
    Backend × AccState × List (String × String) × List Request :=
  match st.user with
  | none => (db, st, [], [])
  | some u =>
    match u.tenantId with
    | none => (db, st, [], [])
    | some tid =>
      if tid = "" then (db, st, [], [])
      else
        match outcome with
        | .error e =>
            (db, st, [("Error creating ledger entry:", e)],
             [.addDocTo "ledgerEntries"])
        | .ok docId =>
            let newEntry : LedgerEntry :=
              { id := docId
                date := st.formData.date
                account := st.formData.account
                description := st.formData.description
                debit := st.formData.debit
                credit := st.formData.credit
                tenantId := tid
                createdAt := now }
            ({ db with ledgerEntries := db.ledgerEntries ++ [newEntry] },
             { st with
                ledgerEntries := st.ledgerEntries ++ [newEntry]
                formData := ⟨"", "", "", 0, 0⟩
                showForm := false },
             [], [.addDocTo "ledgerEntries"])

/-! ## Excel export of ledger and journal (Accounting.tsx lines 123–179) -/

/-- A row handed to `XLSX.utils.json_to_sheet`: an object literal, as an
ordered list of (translated key, value) pairs. -/
abbrev Row := List (String × String)

/-- The argument record of `generateExcel` (src/utils/excelGenerator.ts). -/
structure ExcelCall where
  filename : String
  sheetName : String
  data : List Row
  headers : List String
deriving DecidableEq, Repr

/-- Lexicographic comparison of character lists by code point. -/
def lexLeChars : List Char → List Char → Bool
  | [], _ => true
  | _ :: _, [] => false
  | x :: xs, y :: ys =>
    if x.toNat < y.toNat then true
    else if x.toNat = y.toNat then lexLeChars xs ys
    else false

/-- `new Date(a) <= new Date(b)` for the `YYYY-MM-DD` strings produced by the
date inputs: fixed-width ISO dates compare by timestamp exactly as the strings
compare lexicographically. -/
def dateLE (a b : String) : Bool := lexLeChars a.data b.data

/-- `dateLE` is reflexive: a date equal to a range endpoint is inside the
range — the filter is inclusive of both endpoints. -/
theorem dateLE_refl (d : String) : dateLE d d = true := by
  show lexLeChars d.data d.data = true
  induction d.data with
  | nil => rfl
  | cons x xs ih => simp [lexLeChars, ih]

/-- The filter predicate of `handleExportLedgerExcel`/`handleExportJournalExcel`
(Accounting.tsx lines 124–129, 154–159): `entryDate >= fromDate && entryDate <= toDate`. -/
def inDateRange (r : DateRange) (d : String) : Bool :=
  dateLE r.fromDate d && dateLE d r.toDate

/-- The export row built for one ledger entry (Accounting.tsx lines 131–137). -/
def ledgerExportRow (tr : Tr) (e : LedgerEntry) : Row :=
  [(tr "accounting.date", e.date),
   (tr "accounting.account", e.account),
   (tr "accounting.description", e.description),
   (tr "accounting.debit", toFixed2 e.debit),
   (tr "accounting.credit", toFixed2 e.credit)]

/-- `handleExportLedgerExcel` (Accounting.tsx lines 123–151): filters the
ledger entries to the selected date range, renders each row, and calls
`generateExcel`.  It calls no state setter, so it returns the state unchanged
alongside the Excel call it makes. -/
def handleExportLedgerExcel (st : AccState) : AccState × ExcelCall :=
  let filteredEntries := st.ledgerEntries.filter (fun e => inDateRange st.dateRange e.date)
  let exportData := filteredEntries.map (ledgerExportRow st.t)
  (st,
   { filename := "ledger-entries-" ++ st.dateRange.fromDate ++ "-to-" ++ st.dateRange.toDate
     sheetName := st.t "accounting.ledger"
     data := exportData
     headers := [st.t "accounting.date", st.t "accounting.account",
                 st.t "accounting.description", st.t "accounting.debit",
                 st.t "accounting.credit"] })

/-- The export row built for one journal entry (Accounting.tsx lines 161–167):
the entry lines are rendered `"account: d Dr / c Cr"` and joined with
newlines. -/
def journalExportRow (tr : Tr) (e : JournalEntry) : Row :=
  [(tr "accounting.date", e.date),
   (tr "accounting.description", e.description),
   (tr "accounting.entries",
    String.intercalate "\n"
      (e.entries.map (fun l =>
        l.account ++ ": " ++ toFixed2 l.debit ++ " Dr / " ++ toFixed2 l.credit ++ " Cr")))]

/-- `handleExportJournalExcel` (Accounting.tsx lines 153–179). -/
def handleExportJournalExcel (st : AccState) : AccState × ExcelCall :=
  let filteredEntries := st.journalEntries.filter (fun e => inDateRange st.dateRange e.date)
  let exportData := filteredEntries.map (journalExportRow st.t)
  (st,
   { filename := "journal-entries-" ++ st.dateRange.fromDate ++ "-to-" ++ st.dateRange.toDate
     sheetName := st.t "accounting.journal"
     data := exportData
     headers := [st.t "accounting.date", st.t "accounting.description",
                 st.t "accounting.entries"] })

/-! ## Sales page (src/pages/Sales.tsx) -/

/-- The `Sales` component's state (Sales.tsx lines 182–194). -/
structure SalesState where
  t : Tr
  user : Option User
  invoices : List Invoice
  loading : Bool
  showForm : Bool
  customerName : String
  date : String
  items : List InvoiceItem

/-- `calculateAmount` (Sales.tsx lines 196–198). -/
def calculateAmount (quantity rate : Rat) : Rat := quantity * rate

/-- A call of `handleItemChange (index, field, value)`: the `field : keyof
InvoiceItem` together with the `value` passed for it (the form passes a string
for `description` and `Number(e.target.value)` for `quantity` and `rate`). -/
inductive ItemChange where
  | description (v : String)
  | quantity (v : Rat)
  | rate (v : Rat)
  | amount (v : Rat)
deriving DecidableEq, Repr

/-- The object literal `{...newItems[index], [field]: value, amount: ...}`
(Sales.tsx lines 202–211) applied to one item.  `amount` is recomputed via
`calculateAmount` when the changed field is `quantity` or `rate` and otherwise
set to the old amount — note that for `field === 'amount'` the trailing
`amount:` property overwrites `[field]: value`, leaving the item unchanged. -/
def applyItemChange (old : InvoiceItem) : ItemChange → InvoiceItem
  | .description v => { old with description := v }
  | .quantity v => { old with quantity := v, amount := calculateAmount v old.rate }
  | .rate v => { old with rate := v, amount := calculateAmount old.quantity v }
  | .amount _ => { old with amount := old.amount }

/-- `handleItemChange` (Sales.tsx lines 200–213).  `none` models the
`TypeError` JS throws when `index` is out of range (reading a field of
`undefined`); the form only calls it with indices of rendered rows. -/
def handleItemChange (items : List InvoiceItem) (index : Nat) (c : ItemChange) :
    Option (List InvoiceItem) :=
  match items.get? index with
  | none => none
  | some old => some (items.set index (applyItemChange old c))

/-- The fresh item of the initial form state and of `addItem`
(Sales.tsx lines 192–194, 215–217). -/
def freshItem : InvoiceItem := { description := "", quantity := 1, rate := 0, amount := 0 }

/-- `addItem` (Sales.tsx lines 215–217). -/
def addItem (items : List InvoiceItem) : List InvoiceItem := items ++ [freshItem]

/-- `removeItem` (Sales.tsx lines 219–221): `items.filter((_, i) => i !== index)`. -/
def removeItem (items : List InvoiceItem) (index : Nat) : List InvoiceItem :=
  (items.enum.filter (fun p => p.1 ≠ index)).map (fun p => p.2)

/-- The `invoiceData` object that Sales's `handleSubmit` hands to
`addDoc(collection(db, 'invoices'), ...)` (Sales.tsx lines 228–238).
`totalAmount` is `items.reduce((sum, item) => sum + item.amount, 0)` and
`tenantId` is `user?.uid` — an `Option`, since there is no user guard. -/
structure InvoiceWrite where
  customerName : String
  date : String
  items : List InvoiceItem
  totalAmount : Rat
  status : String
  tenantId : Option String
  createdAt : Nat
deriving DecidableEq, Repr

/-- Builds `invoiceData` from the Sales form state (Sales.tsx lines 228–238). -/
def salesInvoiceWrite (st : SalesState) (now : Nat) : InvoiceWrite :=
  { customerName := st.customerName
    date := st.date
    items := st.items
    totalAmount := st.items.foldl (fun sum item => sum + item.amount) 0
    status := "draft"
    tenantId := st.user.map User.uid
    createdAt := now }

/-- `fetchInvoices` (Sales.tsx lines 257–274).  Returns early when
`!user?.uid`; otherwise one `getDocs` on `invoices` filtered by
`where('tenantId', '==', user.uid)`. -/
def fetchInvoices (outcome : Except String Unit) (db : Backend)
    (st : SalesState) : SalesState × List (String × String) × List Request :=
  match st.user with
  | none => (st, [], [])
  | some u =>
    if u.uid = "" then (st, [], [])
    else
      match outcome with
      | .error e =>
          (st, [("Error fetching invoices:", e)], [.getDocsByTenant "invoices" u.uid])
      | .ok _ =>
          ({ st with invoices := db.invoices.filter (fun d => d.tenantId = u.uid) },
           [], [.getDocsByTenant "invoices" u.uid])

/-! ## Reports export (Accounting.tsx lines 181–1233)

`handleExportReportsExcel` builds, in order, eight local data arrays and two
benchmark objects, then assembles a workbook.  All array contents are built
from string literals, the benchmark constants, and the translation function
`t` — never from `ledgerEntries`, `journalEntries`, `formData` or the forms.
Rows are object literals keyed by translated column names. -/

/-- An `{excellent, good, fair}` benchmark triple. -/
structure Grade3 where
  excellent : Rat
  good : Rat
  fair : Rat
deriving DecidableEq, Repr

/-- `industryBenchmarks` (Accounting.tsx lines 381–400), one branch. -/
structure BenchBranch where
  currentRatio : Grade3
  quickRatio : Grade3
  grossMargin : Grade3
  turnover : Grade3
deriving DecidableEq, Repr

/-- `industryBenchmarks` (Accounting.tsx lines 381–400).  The third `Grade3` of
each branch is `inventoryTurnover` for retail and manufacturing and
`assetTurnover` for service. -/
structure IndustryBenchmarks where
  retail : BenchBranch
  manufacturing : BenchBranch
  service : BenchBranch
deriving DecidableEq, Repr

/-- The `industryBenchmarks` constant (Accounting.tsx lines 381–400). -/
def industryBenchmarks : IndustryBenchmarks :=
  { retail :=
      { currentRatio := ⟨2, 3/2, 1⟩
        quickRatio := ⟨1, 4/5, 1/2⟩
        grossMargin := ⟨2/5, 3/10, 1/5⟩
        turnover := ⟨8, 6, 4⟩ }
    manufacturing :=
      { currentRatio := ⟨5/2, 2, 3/2⟩
        quickRatio := ⟨3/2, 1, 7/10⟩
        grossMargin := ⟨7/20, 1/4, 3/20⟩
        turnover := ⟨6, 4, 2⟩ }
    service :=
      { currentRatio := ⟨3/2, 6/5, 1⟩
        quickRatio := ⟨6/5, 1, 4/5⟩
        grossMargin := ⟨1/2, 2/5, 3/10⟩
        turnover := ⟨2, 3/2, 1⟩ } }

/-- `trialBalanceData` (Accounting.tsx lines 183–234). -/
def trialBalanceData (st : AccState) : List Row :=
  [[(st.t "accounting.account", st.t "accounting.assets"),
    (st.t "accounting.debit", ""), (st.t "accounting.credit", "")],
   [(st.t "accounting.account", "  " ++ st.t "accounting.cash"),
    (st.t "accounting.debit", "10000.00"), (st.t "accounting.credit", "0.00")],
   [(st.t "accounting.account", "  " ++ st.t "accounting.accountsReceivable"),
    (st.t "accounting.debit", "5000.00"), (st.t "accounting.credit", "0.00")],
   [(st.t "accounting.account", "  " ++ st.t "accounting.inventory"),
    (st.t "accounting.debit", "8000.00"), (st.t "accounting.credit", "0.00")],
   [(st.t "accounting.account", st.t "accounting.liabilities"),
    (st.t "accounting.debit", ""), (st.t "accounting.credit", "")],
   [(st.t "accounting.account", "  " ++ st.t "accounting.accountsPayable"),
    (st.t "accounting.debit", "0.00"), (st.t "accounting.credit", "3000.00")],
   [(st.t "accounting.account", "  " ++ st.t "accounting.loans"),
    (st.t "accounting.debit", "0.00"), (st.t "accounting.credit", "5000.00")],
   [(st.t "accounting.account", st.t "accounting.equity"),
    (st.t "accounting.debit", ""), (st.t "accounting.credit", "")],
   [(st.t "accounting.account", "  " ++ st.t "accounting.capital"),
    (st.t "accounting.debit", "0.00"), (st.t "accounting.credit", "12000.00")],
   [(st.t "accounting.account", "  " ++ st.t "accounting.retainedEarnings"),
    (st.t "accounting.debit", "0.00"), (st.t "accounting.credit", "3000.00")]]

/-- `profitLossData` (Accounting.tsx lines 237–266). -/
def profitLossData (st : AccState) : List Row :=
  [[(st.t "accounting.description", st.t "accounting.revenue"), (st.t "accounting.amount", "")],
   [(st.t "accounting.description", "  " ++ st.t "accounting.sales"),
    (st.t "accounting.amount", "50000.00")],
   [(st.t "accounting.description", "  " ++ st.t "accounting.otherIncome"),
    (st.t "accounting.amount", "2000.00")],
   [(st.t "accounting.description", st.t "accounting.expenses"), (st.t "accounting.amount", "")],
   [(st.t "accounting.description", "  " ++ st.t "accounting.costOfGoodsSold"),
    (st.t "accounting.amount", "25000.00")],
   [(st.t "accounting.description", "  " ++ st.t "accounting.operatingExpenses"),
    (st.t "accounting.amount", "5000.00")],
   [(st.t "accounting.description", st.t "accounting.profit"),
    (st.t "accounting.amount", "20000.00")]]

/-- `balanceSheetData` (Accounting.tsx lines 269–334). -/
def balanceSheetData (st : AccState) : List Row :=
  [[(st.t "accounting.description", st.t "accounting.assets"), (st.t "accounting.amount", "")],
   [(st.t "accounting.description", "  " ++ st.t "accounting.currentAssets"),
    (st.t "accounting.amount", "")],
   [(st.t "accounting.description", "    " ++ st.t "accounting.cash"),
    (st.t "accounting.amount", "10000.00")],
   [(st.t "accounting.description", "    " ++ st.t "accounting.accountsReceivable"),
    (st.t "accounting.amount", "5000.00")],
   [(st.t "accounting.description", "    " ++ st.t "accounting.inventory"),
    (st.t "accounting.amount", "8000.00")],
   [(st.t "accounting.description", "  " ++ st.t "accounting.fixedAssets"),
    (st.t "accounting.amount", "")],
   [(st.t "accounting.description", "    " ++ st.t "accounting.equipment"),
    (st.t "accounting.amount", "10000.00")],
   [(st.t "accounting.description", st.t "accounting.liabilities"), (st.t "accounting.amount", "")],
   [(st.t "accounting.description", "  " ++ st.t "accounting.currentLiabilities"),
    (st.t "accounting.amount", "")],
   [(st.t "accounting.description", "    " ++ st.t "accounting.accountsPayable"),
    (st.t "accounting.amount", "3000.00")],
   [(st.t "accounting.description", "    " ++ st.t "accounting.shortTermLoans"),
    (st.t "accounting.amount", "2000.00")],
   [(st.t "accounting.description", "  " ++ st.t "accounting.longTermLiabilities"),
    (st.t "accounting.amount", "")],
   [(st.t "accounting.description", "    " ++ st.t "accounting.longTermLoans"),
    (st.t "accounting.amount", "3000.00")],
   [(st.t "accounting.description", st.t "accounting.equity"), (st.t "accounting.amount", "")],
   [(st.t "accounting.description", "  " ++ st.t "accounting.capital"),
    (st.t "accounting.amount", "12000.00")],
   [(st.t "accounting.description", "  " ++ st.t "accounting.retainedEarnings"),
    (st.t "accounting.amount", "3000.00")]]

/-- `cashFlowData` (Accounting.tsx lines 337–378). -/
def cashFlowData (st : AccState) : List Row :=
  [[(st.t "accounting.description", st.t "accounting.operatingActivities"),
    (st.t "accounting.amount", "")],
   [(st.t "accounting.description", "  " ++ st.t "accounting.netIncome"),
    (st.t "accounting.amount", "20000.00")],
   [(st.t "accounting.description", "  " ++ st.t "accounting.depreciation"),
    (st.t "accounting.amount", "1000.00")],
   [(st.t "accounting.description", "  " ++ st.t "accounting.changesInWorkingCapital"),
    (st.t "accounting.amount", "-6000.00")],
   [(st.t "accounting.description", st.t "accounting.investingActivities"),
    (st.t "accounting.amount", "")],
   [(st.t "accounting.description", "  " ++ st.t "accounting.purchaseOfEquipment"),
    (st.t "accounting.amount", "-5000.00")],
   [(st.t "accounting.description", st.t "accounting.financingActivities"),
    (st.t "accounting.amount", "")],
   [(st.t "accounting.description", "  " ++ st.t "accounting.loanProceeds"),
    (st.t "accounting.amount", "5000.00")],
   [(st.t "accounting.description", "  " ++ st.t "accounting.loanRepayments"),
    (st.t "accounting.amount", "-3000.00")],
   [(st.t "accounting.description", st.t "accounting.netCashFlow"),
    (st.t "accounting.amount", "12000.00")]]

/-- The repeated trend template literal of the industry rows
(Accounting.tsx lines 419, 425, 437, …):
`=IF(cell>${g.excellent},"Excellent",IF(cell>${g.good},"Good",IF(cell>${g.fair},"Fair","Poor")))`. -/
def benchTrendCell (cell : String) (g : Grade3) : String :=
  "=IF(" ++ cell ++ ">" ++ jsNumToString g.excellent ++ ",\"Excellent\",IF(" ++
    cell ++ ">" ++ jsNumToString g.good ++ ",\"Good\",IF(" ++
    cell ++ ">" ++ jsNumToString g.fair ++ ",\"Fair\",\"Poor\")))"

/-- The repeated analysis template literal of the industry rows
(Accounting.tsx lines 420, 426, 438, …). -/
def benchAnalysisCell (cell : String) (g : Grade3) : String :=
  "=IF(" ++ cell ++ ">" ++ jsNumToString g.excellent ++ ",\"Above industry average\",IF(" ++
    cell ++ ">" ++ jsNumToString g.good ++ ",\"Industry average\",IF(" ++
    cell ++ ">" ++ jsNumToString g.fair ++
    ",\"Below industry average\",\"Significantly below industry average\")))"

/-- A four-column report row keyed by description/amount/trend/analysis. -/
def reportRow4 (tr : Tr) (descr amount trend analysis : String) : Row :=
  [(tr "accounting.description", descr), (tr "accounting.amount", amount),
   (tr "accounting.trend", trend), (tr "accounting.analysis", analysis)]

/-- `industryAnalysisData` (Accounting.tsx lines 403–464). -/
def industryAnalysisData (st : AccState) : List Row :=
  [reportRow4 st.t (st.t "accounting.industryAnalysis") "" "" "",
   reportRow4 st.t ("  " ++ st.t "accounting.retailIndustry") "" "" "",
   reportRow4 st.t ("    " ++ st.t "accounting.currentRatio") "=B2"
     (benchTrendCell "B3" industryBenchmarks.retail.currentRatio)
     (benchAnalysisCell "B3" industryBenchmarks.retail.currentRatio),
   reportRow4 st.t ("    " ++ st.t "accounting.grossMargin") "=B6"
     (benchTrendCell "B4" industryBenchmarks.retail.grossMargin)
     (benchAnalysisCell "B4" industryBenchmarks.retail.grossMargin),
   reportRow4 st.t ("  " ++ st.t "accounting.manufacturingIndustry") "" "" "",
   reportRow4 st.t ("    " ++ st.t "accounting.currentRatio") "=B2"
     (benchTrendCell "B6" industryBenchmarks.manufacturing.currentRatio)
     (benchAnalysisCell "B6" industryBenchmarks.manufacturing.currentRatio),
   reportRow4 st.t ("    " ++ st.t "accounting.grossMargin") "=B6"
     (benchTrendCell "B7" industryBenchmarks.manufacturing.grossMargin)
     (benchAnalysisCell "B7" industryBenchmarks.manufacturing.grossMargin),
   reportRow4 st.t ("  " ++ st.t "accounting.serviceIndustry") "" "" "",
   reportRow4 st.t ("    " ++ st.t "accounting.currentRatio") "=B2"
     (benchTrendCell "B9" industryBenchmarks.service.currentRatio)
     (benchAnalysisCell "B9" industryBenchmarks.service.currentRatio),
   reportRow4 st.t ("    " ++ st.t "accounting.grossMargin") "=B6"
     (benchTrendCell "B10" industryBenchmarks.service.grossMargin)
     (benchAnalysisCell "B10" industryBenchmarks.service.grossMargin)]

/-- The repeated `SUMIFS(INDIRECT("Sheet!B:B"),INDIRECT("Sheet!A:A"),"*Crit*")`
fragment of the formula strings in `financialRatiosData` and
`marketMetricsData`. -/
def sumifsB (sheet crit : String) : String :=
  "SUMIFS(INDIRECT(\"" ++ sheet ++ "!B:B\"),INDIRECT(\"" ++ sheet ++
    "!A:A\"),\"*" ++ crit ++ "*\")"

/-- `financialRatiosData` (Accounting.tsx lines 467–588). -/
def financialRatiosData (st : AccState) : List Row :=
  [reportRow4 st.t (st.t "accounting.liquidityRatios") "" "" "",
   reportRow4 st.t ("  " ++ st.t "accounting.currentRatio")
     ("=" ++ sumifsB "BalanceSheet" "Current Assets" ++ "/" ++
       sumifsB "BalanceSheet" "Current Liabilities")
     "=IF(B2>1.5,\"Good\",IF(B2>1,\"Fair\",\"Poor\"))"
     "=IF(B2>1.5,\"Strong liquidity position\",IF(B2>1,\"Adequate liquidity\",\"Potential liquidity issues\"))",
   reportRow4 st.t ("  " ++ st.t "accounting.quickRatio")
     ("=(" ++ sumifsB "BalanceSheet" "Cash" ++ "+" ++
       sumifsB "BalanceSheet" "Accounts Receivable" ++ ")/" ++
       sumifsB "BalanceSheet" "Current Liabilities")
     "=IF(B3>1,\"Good\",IF(B3>0.5,\"Fair\",\"Poor\"))"
     "=IF(B3>1,\"Strong immediate liquidity\",IF(B3>0.5,\"Adequate immediate liquidity\",\"Potential immediate liquidity issues\"))",
   reportRow4 st.t ("  " ++ st.t "accounting.cashRatio")
     ("=" ++ sumifsB "BalanceSheet" "Cash" ++ "/" ++
       sumifsB "BalanceSheet" "Current Liabilities")
     "=IF(B4>0.5,\"Good\",IF(B4>0.2,\"Fair\",\"Poor\"))"
     "=IF(B4>0.5,\"Strong cash position\",IF(B4>0.2,\"Adequate cash reserves\",\"Low cash reserves - potential risk\"))",
   reportRow4 st.t (st.t "accounting.profitabilityRatios") "" "" "",
   reportRow4 st.t ("  " ++ st.t "accounting.grossProfitMargin")
     ("=(" ++ sumifsB "ProfitAndLoss" "Sales" ++ "-" ++
       sumifsB "ProfitAndLoss" "Cost of Goods Sold" ++ ")/" ++
       sumifsB "ProfitAndLoss" "Sales")
     "=IF(B6>0.3,\"Excellent\",IF(B6>0.2,\"Good\",IF(B6>0.1,\"Fair\",\"Poor\")))"
     "=IF(B6>0.3,\"Strong pricing power and cost control\",IF(B6>0.2,\"Good profitability\",IF(B6>0.1,\"Marginal profitability\",\"Low profitability\")))",
   reportRow4 st.t ("  " ++ st.t "accounting.operatingMargin")
     ("=" ++ sumifsB "ProfitAndLoss" "Operating Income" ++ "/" ++
       sumifsB "ProfitAndLoss" "Sales")
     "=IF(B7>0.2,\"Excellent\",IF(B7>0.1,\"Good\",IF(B7>0.05,\"Fair\",\"Poor\")))"
     "=IF(B7>0.2,\"Exceptional operational efficiency\",IF(B7>0.1,\"Good operational performance\",IF(B7>0.05,\"Adequate operations\",\"Inefficient operations\")))",
   reportRow4 st.t ("  " ++ st.t "accounting.netProfitMargin")
     ("=" ++ sumifsB "ProfitAndLoss" "Net Income" ++ "/" ++
       sumifsB "ProfitAndLoss" "Sales")
     "=IF(B8>0.15,\"Excellent\",IF(B8>0.1,\"Good\",IF(B8>0.05,\"Fair\",\"Poor\")))"
     "=IF(B8>0.15,\"Exceptional overall profitability\",IF(B8>0.1,\"Strong overall profitability\",IF(B8>0.05,\"Adequate profitability\",\"Low overall profitability\")))",
   reportRow4 st.t (st.t "accounting.efficiencyRatios") "" "" "",
   reportRow4 st.t ("  " ++ st.t "accounting.assetTurnover")
     ("=" ++ sumifsB "ProfitAndLoss" "Sales" ++ "/" ++
       sumifsB "BalanceSheet" "Total Assets")
     "=IF(B10>1.5,\"Excellent\",IF(B10>1,\"Good\",IF(B10>0.5,\"Fair\",\"Poor\")))"
     "=IF(B10>1.5,\"Highly efficient asset utilization\",IF(B10>1,\"Good asset utilization\",IF(B10>0.5,\"Adequate asset utilization\",\"Inefficient asset utilization\")))",
   reportRow4 st.t ("  " ++ st.t "accounting.inventoryTurnover")
     ("=" ++ sumifsB "ProfitAndLoss" "Cost of Goods Sold" ++ "/" ++
       sumifsB "BalanceSheet" "Inventory")
     "=IF(B11>6,\"Excellent\",IF(B11>4,\"Good\",IF(B11>2,\"Fair\",\"Poor\")))"
     "=IF(B11>6,\"Highly efficient inventory management\",IF(B11>4,\"Good inventory turnover\",IF(B11>2,\"Adequate inventory turnover\",\"Slow inventory turnover\")))",
   reportRow4 st.t ("  " ++ st.t "accounting.receivablesTurnover")
     ("=" ++ sumifsB "ProfitAndLoss" "Sales" ++ "/" ++
       sumifsB "BalanceSheet" "Accounts Receivable")
     "=IF(B12>12,\"Excellent\",IF(B12>8,\"Good\",IF(B12>4,\"Fair\",\"Poor\")))"
     "=IF(B12>12,\"Excellent receivables collection\",IF(B12>8,\"Good receivables management\",IF(B12>4,\"Adequate receivables turnover\",\"Slow receivables collection\")))",
   reportRow4 st.t ("  " ++ st.t "accounting.payablesTurnover")
     ("=" ++ sumifsB "ProfitAndLoss" "Cost of Goods Sold" ++ "/" ++
       sumifsB "BalanceSheet" "Accounts Payable")
     "=IF(B13>12,\"Excellent\",IF(B13>8,\"Good\",IF(B13>4,\"Fair\",\"Poor\")))"
     "=IF(B13>12,\"Efficient payables management\",IF(B13>8,\"Good payables turnover\",IF(B13>4,\"Adequate payables turnover\",\"Slow payables turnover\")))",
   reportRow4 st.t (st.t "accounting.solvencyRatios") "" "" "",
   reportRow4 st.t ("  " ++ st.t "accounting.debtToEquity")
     ("=" ++ sumifsB "BalanceSheet" "Liabilities" ++ "/" ++
       sumifsB "BalanceSheet" "Equity")
     "=IF(B15<1,\"Good\",IF(B15<2,\"Fair\",\"Poor\"))"
     "=IF(B15<1,\"Conservative capital structure\",IF(B15<2,\"Moderate leverage\",\"High leverage - potential risk\"))",
   reportRow4 st.t ("  " ++ st.t "accounting.debtRatio")
     ("=" ++ sumifsB "BalanceSheet" "Liabilities" ++ "/" ++
       sumifsB "BalanceSheet" "Assets")
     "=IF(B16<0.5,\"Good\",IF(B16<0.7,\"Fair\",\"Poor\"))"
     "=IF(B16<0.5,\"Strong financial position\",IF(B16<0.7,\"Moderate financial position\",\"High financial risk\"))",
   reportRow4 st.t ("  " ++ st.t "accounting.interestCoverage")
     ("=" ++ sumifsB "ProfitAndLoss" "Operating Income" ++ "/" ++
       sumifsB "ProfitAndLoss" "Interest Expense")
     "=IF(B17>3,\"Good\",IF(B17>1.5,\"Fair\",\"Poor\"))"
     "=IF(B17>3,\"Strong ability to service debt\",IF(B17>1.5,\"Adequate debt service capacity\",\"Potential debt service issues\"))",
   reportRow4 st.t (st.t "accounting.marketRatios") "" "" "",
   reportRow4 st.t ("  " ++ st.t "accounting.earningsPerShare")
     ("=" ++ sumifsB "ProfitAndLoss" "Net Income" ++ "/" ++
       sumifsB "BalanceSheet" "Shares Outstanding")
     "=IF(B19>0,\"Positive\",\"Negative\")"
     "=IF(B19>0,\"Profitable per share\",\"Loss per share\")",
   reportRow4 st.t ("  " ++ st.t "accounting.priceToEarnings")
     ("=" ++ sumifsB "MarketData" "Stock Price" ++ "/B19")
     "=IF(B20<15,\"Undervalued\",IF(B20<25,\"Fairly valued\",\"Overvalued\"))"
     "=IF(B20<15,\"Potential investment opportunity\",IF(B20<25,\"Market aligned\",\"Potential overvaluation\"))"]

/-- One branch of `industryCashFlowBenchmarks` (Accounting.tsx lines 591–616). -/
structure CashFlowBenchBranch where
  operatingCashFlowMargin : Grade3
  cashConversionCycle : Grade3
  workingCapitalRatio : Grade3
  dso : Grade3
  dio : Grade3
  dpo : Grade3
deriving DecidableEq, Repr

/-- The `industryCashFlowBenchmarks` constant (Accounting.tsx lines 591–616). -/
structure IndustryCashFlowBenchmarks where
  retail : CashFlowBenchBranch
  manufacturing : CashFlowBenchBranch
  service : CashFlowBenchBranch
deriving DecidableEq, Repr

/-- `industryCashFlowBenchmarks` (Accounting.tsx lines 591–616). -/
def industryCashFlowBenchmarks : IndustryCashFlowBenchmarks :=
  { retail :=
      { operatingCashFlowMargin := ⟨3/20, 1/10, 1/20⟩
        cashConversionCycle := ⟨30, 45, 60⟩
        workingCapitalRatio := ⟨2, 3/2, 1⟩
        dso := ⟨30, 45, 60⟩
        dio := ⟨30, 45, 60⟩
        dpo := ⟨45, 30, 15⟩ }
    manufacturing :=
      { operatingCashFlowMargin := ⟨1/5, 3/20, 1/10⟩
        cashConversionCycle := ⟨45, 60, 75⟩
        workingCapitalRatio := ⟨5/2, 2, 3/2⟩
        dso := ⟨45, 60, 75⟩
        dio := ⟨45, 60, 75⟩
        dpo := ⟨60, 45, 30⟩ }
    service :=
      { operatingCashFlowMargin := ⟨1/4, 1/5, 3/20⟩
        cashConversionCycle := ⟨15, 30, 45⟩
        workingCapitalRatio := ⟨3/2, 6/5, 1⟩
        dso := ⟨15, 30, 45⟩
        dio := ⟨0, 0, 0⟩
        dpo := ⟨30, 15, 0⟩ } }

/-- The shape of the object the identifier `industryMetrics` would have to
denote: rows 30–33 of `marketMetricsData` (Accounting.tsx lines 797–816) read
`industryMetrics.retail.capitalIntensity`, `.retail.employeeProductivity`,
`.manufacturing.capacityUtilization` and `.service.customerRetention`. -/
structure MetricsTable where
  retailCapitalIntensity : Grade3
  retailEmployeeProductivity : Grade3
  manufacturingCapacityUtilization : Grade3
  serviceCustomerRetention : Grade3
deriving DecidableEq, Repr

/-- Resolution of the identifier `industryMetrics` in the scope of
`handleExportReportsExcel`: unlike `industryBenchmarks` (line 381) and
`industryCashFlowBenchmarks` (line 591), `industryMetrics` is declared nowhere
in `Accounting.tsx` (or anywhere in the repository), so the lookup fails and
reading it throws a `ReferenceError` at run time. -/
def industryMetricsLookup : Option MetricsTable := none

/-- Rows 1–33 of `marketMetricsData` (Accounting.tsx lines 619–818), as a
function of the value the undeclared identifier `industryMetrics` would need to
have for rows 30–33 to evaluate. -/
def marketMetricsRows (st : AccState) (industryMetrics : MetricsTable) : List Row :=
  [reportRow4 st.t (st.t "accounting.marketPerformance") "" "" "",
   reportRow4 st.t ("  " ++ st.t "accounting.marketCapitalization")
     ("=" ++ sumifsB "MarketData" "Stock Price" ++ "*" ++
       sumifsB "BalanceSheet" "Shares Outstanding")
     "=IF(B2>1000000000,\"Large Cap\",IF(B2>500000000,\"Mid Cap\",\"Small Cap\"))"
     "=IF(B2>1000000000,\"Large market presence\",IF(B2>500000000,\"Moderate market presence\",\"Small market presence\"))",
   reportRow4 st.t ("  " ++ st.t "accounting.enterpriseValue")
     ("=B2+" ++ sumifsB "BalanceSheet" "Debt" ++ "-" ++ sumifsB "BalanceSheet" "Cash")
     "=IF(B3/B2<1.5,\"Conservative\",IF(B3/B2<2,\"Moderate\",\"Aggressive\"))"
     "=IF(B3/B2<1.5,\"Conservative capital structure\",IF(B3/B2<2,\"Moderate leverage\",\"High leverage - potential risk\"))",
   reportRow4 st.t ("  " ++ st.t "accounting.priceToBook")
     ("=" ++ sumifsB "MarketData" "Stock Price" ++ "/(" ++
       sumifsB "BalanceSheet" "Equity" ++ "/" ++
       sumifsB "BalanceSheet" "Shares Outstanding" ++ ")")
     "=IF(B4<1,\"Undervalued\",IF(B4<2,\"Fairly valued\",\"Overvalued\"))"
     "=IF(B4<1,\"Potential value investment\",IF(B4<2,\"Market aligned\",\"Potential overvaluation\"))",
   reportRow4 st.t ("  " ++ st.t "accounting.priceToSales")
     ("=B2/" ++ sumifsB "ProfitAndLoss" "Sales")
     "=IF(B5<1,\"Undervalued\",IF(B5<3,\"Fairly valued\",\"Overvalued\"))"
     "=IF(B5<1,\"Potential value opportunity\",IF(B5<3,\"Market aligned\",\"Potential overvaluation\"))",
   reportRow4 st.t ("  " ++ st.t "accounting.dividendYield")
     ("=" ++ sumifsB "ProfitAndLoss" "Dividends" ++ "/" ++
       sumifsB "MarketData" "Stock Price")
     "=IF(B6>0.05,\"High\",IF(B6>0.02,\"Moderate\",\"Low\"))"
     "=IF(B6>0.05,\"Attractive for income investors\",IF(B6>0.02,\"Moderate income potential\",\"Low income potential\"))",
   reportRow4 st.t ("  " ++ st.t "accounting.pegRatio")
     ("=B4/(" ++ sumifsB "ProfitAndLoss" "Net Income Growth" ++ "*100)")
     "=IF(B7<1,\"Undervalued\",IF(B7<2,\"Fairly valued\",\"Overvalued\"))"
     "=IF(B7<1,\"Growth at reasonable price\",IF(B7<2,\"Market aligned\",\"Potential overvaluation\"))",
   reportRow4 st.t ("  " ++ st.t "accounting.beta")
     ("=" ++ sumifsB "MarketData" "Beta")
     "=IF(B8<0.8,\"Defensive\",IF(B8<1.2,\"Market\",IF(B8<1.5,\"Aggressive\",\"Highly Volatile\")))"
     "=IF(B8<0.8,\"Lower market risk\",IF(B8<1.2,\"Market risk\",IF(B8<1.5,\"Higher market risk\",\"Very high market risk\")))",
   reportRow4 st.t ("  " ++ st.t "accounting.returnOnEquity")
     ("=" ++ sumifsB "ProfitAndLoss" "Net Income" ++ "/" ++
       sumifsB "BalanceSheet" "Equity")
     "=IF(B9>0.15,\"Excellent\",IF(B9>0.1,\"Good\",IF(B9>0.05,\"Fair\",\"Poor\")))"
     "=IF(B9>0.15,\"Exceptional return to shareholders\",IF(B9>0.1,\"Good return to shareholders\",IF(B9>0.05,\"Adequate return\",\"Poor return\")))",
   reportRow4 st.t ("  " ++ st.t "accounting.returnOnAssets")
     ("=" ++ sumifsB "ProfitAndLoss" "Net Income" ++ "/" ++
       sumifsB "BalanceSheet" "Total Assets")
     "=IF(B10>0.1,\"Excellent\",IF(B10>0.05,\"Good\",IF(B10>0,\"Fair\",\"Poor\")))"
     "=IF(B10>0.1,\"Highly efficient asset utilization\",IF(B10>0.05,\"Good asset utilization\",IF(B10>0,\"Adequate utilization\",\"Inefficient utilization\")))",
   reportRow4 st.t ("  " ++ st.t "accounting.freeCashFlow")
     ("=" ++ sumifsB "CashFlow" "Operating Cash Flow" ++ "-" ++
       sumifsB "CashFlow" "Capital Expenditures")
     "=IF(B11>0,\"Positive\",IF(B11=0,\"Neutral\",\"Negative\"))"
     "=IF(B11>0,\"Generating positive free cash flow\",IF(B11=0,\"Breaking even\",\"Negative cash flow - potential concern\"))",
   reportRow4 st.t ("  " ++ st.t "accounting.freeCashFlowYield")
     "=B11/B2"
     "=IF(B12>0.05,\"High\",IF(B12>0.02,\"Moderate\",\"Low\"))"
     "=IF(B12>0.05,\"Attractive cash flow yield\",IF(B12>0.02,\"Moderate cash flow yield\",\"Low cash flow yield\"))",
   reportRow4 st.t ("  " ++ st.t "accounting.freeCashFlowToEquity")
     ("=B11/" ++ sumifsB "BalanceSheet" "Equity")
     "=IF(B13>0.1,\"Excellent\",IF(B13>0.05,\"Good\",IF(B13>0,\"Fair\",\"Poor\")))"
     "=IF(B13>0.1,\"Strong cash flow to equity\",IF(B13>0.05,\"Good cash flow generation\",IF(B13>0,\"Adequate cash flow\",\"Poor cash flow generation\")))",
   reportRow4 st.t ("  " ++ st.t "accounting.ebitda")
     ("=" ++ sumifsB "ProfitAndLoss" "Operating Income" ++ "+" ++
       sumifsB "ProfitAndLoss" "Depreciation" ++ "+" ++
       sumifsB "ProfitAndLoss" "Amortization")
     "=IF(B14>0,\"Positive\",IF(B14=0,\"Neutral\",\"Negative\"))"
     "=IF(B14>0,\"Strong operating performance\",IF(B14=0,\"Breaking even\",\"Negative operating performance\"))",
   reportRow4 st.t ("  " ++ st.t "accounting.evToEbitda")
     "=B3/B14"
     "=IF(B15<10,\"Undervalued\",IF(B15<15,\"Fairly valued\",\"Overvalued\"))"
     "=IF(B15<10,\"Potential value opportunity\",IF(B15<15,\"Market aligned\",\"Potential overvaluation\"))",
   reportRow4 st.t ("  " ++ st.t "accounting.ebitdaMargin")
     ("=B14/" ++ sumifsB "ProfitAndLoss" "Sales")
     "=IF(B16>0.2,\"Excellent\",IF(B16>0.1,\"Good\",IF(B16>0.05,\"Fair\",\"Poor\")))"
     "=IF(B16>0.2,\"Exceptional operating efficiency\",IF(B16>0.1,\"Good operating performance\",IF(B16>0.05,\"Adequate performance\",\"Poor operating efficiency\")))",
   reportRow4 st.t ("  " ++ st.t "accounting.operatingCashFlow")
     ("=" ++ sumifsB "CashFlow" "Operating Cash Flow")
     "=IF(B17>0,\"Positive\",IF(B17=0,\"Neutral\",\"Negative\"))"
     "=IF(B17>0,\"Strong operating cash generation\",IF(B17=0,\"Breaking even\",\"Negative operating cash flow - potential concern\"))",
   reportRow4 st.t ("  " ++ st.t "accounting.capitalExpenditures")
     ("=" ++ sumifsB "CashFlow" "Capital Expenditures")
     "=IF(B18<0,\"Investment\",IF(B18=0,\"Maintenance\",\"Disinvestment\"))"
     "=IF(B18<0,\"Growth investment\",IF(B18=0,\"Maintenance only\",\"Asset disposal\"))",
   reportRow4 st.t ("  " ++ st.t "accounting.workingCapital")
     ("=" ++ sumifsB "BalanceSheet" "Current Assets" ++ "-" ++
       sumifsB "BalanceSheet" "Current Liabilities")
     "=IF(B19>0,\"Positive\",IF(B19=0,\"Neutral\",\"Negative\"))"
     "=IF(B19>0,\"Adequate working capital\",IF(B19=0,\"Minimal working capital\",\"Insufficient working capital\"))",
   reportRow4 st.t ("  " ++ st.t "accounting.workingCapitalRatio")
     ("=" ++ sumifsB "BalanceSheet" "Current Assets" ++ "/" ++
       sumifsB "BalanceSheet" "Current Liabilities")
     "=IF(B20>2,\"Excellent\",IF(B20>1.5,\"Good\",IF(B20>1,\"Fair\",\"Poor\")))"
     "=IF(B20>2,\"Strong liquidity position\",IF(B20>1.5,\"Good liquidity\",IF(B20>1,\"Adequate liquidity\",\"Potential liquidity issues\")))",
   reportRow4 st.t ("  " ++ st.t "accounting.cashConversionCycle")
     ("=" ++ sumifsB "BalanceSheet" "Inventory" ++ "/" ++
       sumifsB "ProfitAndLoss" "Cost of Goods Sold" ++ "*365+" ++
       sumifsB "BalanceSheet" "Accounts Receivable" ++ "/" ++
       sumifsB "ProfitAndLoss" "Sales" ++ "*365-" ++
       sumifsB "BalanceSheet" "Accounts Payable" ++ "/" ++
       sumifsB "ProfitAndLoss" "Cost of Goods Sold" ++ "*365")
     "=IF(B21<30,\"Excellent\",IF(B21<60,\"Good\",IF(B21<90,\"Fair\",\"Poor\")))"
     "=IF(B21<30,\"Efficient cash conversion\",IF(B21<60,\"Good cash management\",IF(B21<90,\"Adequate cash cycle\",\"Inefficient cash conversion\")))",
   reportRow4 st.t ("  " ++ st.t "accounting.daysSalesOutstanding")
     ("=" ++ sumifsB "BalanceSheet" "Accounts Receivable" ++ "/" ++
       sumifsB "ProfitAndLoss" "Sales" ++ "*365")
     "=IF(B22<30,\"Excellent\",IF(B22<45,\"Good\",IF(B22<60,\"Fair\",\"Poor\")))"
     "=IF(B22<30,\"Efficient receivables collection\",IF(B22<45,\"Good receivables management\",IF(B22<60,\"Adequate collection period\",\"Slow receivables collection\")))",
   reportRow4 st.t ("  " ++ st.t "accounting.daysInventoryOutstanding")
     ("=" ++ sumifsB "BalanceSheet" "Inventory" ++ "/" ++
       sumifsB "ProfitAndLoss" "Cost of Goods Sold" ++ "*365")
     "=IF(B23<30,\"Excellent\",IF(B23<45,\"Good\",IF(B23<60,\"Fair\",\"Poor\")))"
     "=IF(B23<30,\"Efficient inventory management\",IF(B23<45,\"Good inventory turnover\",IF(B23<60,\"Adequate inventory period\",\"Slow inventory turnover\")))",
   reportRow4 st.t ("  " ++ st.t "accounting.daysPayableOutstanding")
     ("=" ++ sumifsB "BalanceSheet" "Accounts Payable" ++ "/" ++
       sumifsB "ProfitAndLoss" "Cost of Goods Sold" ++ "*365")
     "=IF(B24>45,\"Excellent\",IF(B24>30,\"Good\",IF(B24>15,\"Fair\",\"Poor\")))"
     "=IF(B24>45,\"Efficient payables management\",IF(B24>30,\"Good payables period\",IF(B24>15,\"Adequate payment terms\",\"Short payment terms\")))",
   reportRow4 st.t ("  " ++ st.t "accounting.operatingCashFlowMargin")
     ("=B17/" ++ sumifsB "ProfitAndLoss" "Sales")
     (benchTrendCell "B25" industryCashFlowBenchmarks.retail.operatingCashFlowMargin)
     (benchAnalysisCell "B25" industryCashFlowBenchmarks.retail.operatingCashFlowMargin),
   reportRow4 st.t ("  " ++ st.t "accounting.cashFlowCoverage")
     ("=B17/" ++ sumifsB "ProfitAndLoss" "Interest Expense")
     "=IF(B26>3,\"Excellent\",IF(B26>2,\"Good\",IF(B26>1,\"Fair\",\"Poor\")))"
     "=IF(B26>3,\"Strong ability to service debt\",IF(B26>2,\"Good debt service capacity\",IF(B26>1,\"Adequate coverage\",\"Potential debt service issues\")))",
   reportRow4 st.t ("  " ++ st.t "accounting.cashFlowToDebt")
     ("=B17/" ++ sumifsB "BalanceSheet" "Total Debt")
     "=IF(B27>0.2,\"Excellent\",IF(B27>0.15,\"Good\",IF(B27>0.1,\"Fair\",\"Poor\")))"
     "=IF(B27>0.2,\"Strong debt repayment capacity\",IF(B27>0.15,\"Good debt management\",IF(B27>0.1,\"Adequate repayment ability\",\"Potential debt repayment issues\")))",
   reportRow4 st.t ("  " ++ st.t "accounting.cashFlowToRevenue")
     ("=B17/" ++ sumifsB "ProfitAndLoss" "Sales")
     "=IF(B28>0.15,\"Excellent\",IF(B28>0.1,\"Good\",IF(B28>0.05,\"Fair\",\"Poor\")))"
     "=IF(B28>0.15,\"Strong cash generation from sales\",IF(B28>0.1,\"Good cash conversion\",IF(B28>0.05,\"Adequate cash flow\",\"Poor cash conversion\")))",
   reportRow4 st.t ("  " ++ st.t "accounting.cashFlowToAssets")
     ("=B17/" ++ sumifsB "BalanceSheet" "Total Assets")
     "=IF(B29>0.1,\"Excellent\",IF(B29>0.05,\"Good\",IF(B29>0,\"Fair\",\"Poor\")))"
     "=IF(B29>0.1,\"Efficient asset utilization\",IF(B29>0.05,\"Good asset efficiency\",IF(B29>0,\"Adequate utilization\",\"Inefficient asset utilization\")))",
   reportRow4 st.t ("  " ++ st.t "accounting.capitalIntensity")
     ("=" ++ sumifsB "BalanceSheet" "Fixed Assets" ++ "/" ++
       sumifsB "ProfitAndLoss" "Sales")
     ("=IF(B30<" ++ jsNumToString industryMetrics.retailCapitalIntensity.excellent ++
       ",\"Excellent\",IF(B30<" ++ jsNumToString industryMetrics.retailCapitalIntensity.good ++
       ",\"Good\",IF(B30<" ++ jsNumToString industryMetrics.retailCapitalIntensity.fair ++
       ",\"Fair\",\"Poor\")))")
     ("=IF(B30<" ++ jsNumToString industryMetrics.retailCapitalIntensity.excellent ++
       ",\"Efficient capital utilization\",IF(B30<" ++
       jsNumToString industryMetrics.retailCapitalIntensity.good ++
       ",\"Good capital efficiency\",IF(B30<" ++
       jsNumToString industryMetrics.retailCapitalIntensity.fair ++
       ",\"Adequate utilization\",\"Inefficient capital utilization\")))"),
   reportRow4 st.t ("  " ++ st.t "accounting.employeeProductivity")
     ("=" ++ sumifsB "ProfitAndLoss" "Sales" ++ "/" ++ sumifsB "HR" "Total Employees")
     (benchTrendCell "B31" industryMetrics.retailEmployeeProductivity)
     ("=IF(B31>" ++ jsNumToString industryMetrics.retailEmployeeProductivity.excellent ++
       ",\"High employee productivity\",IF(B31>" ++
       jsNumToString industryMetrics.retailEmployeeProductivity.good ++
       ",\"Good productivity\",IF(B31>" ++
       jsNumToString industryMetrics.retailEmployeeProductivity.fair ++
       ",\"Adequate productivity\",\"Low productivity\")))"),
   reportRow4 st.t ("  " ++ st.t "accounting.capacityUtilization")
     ("=" ++ sumifsB "Production" "Actual Output" ++ "/" ++
       sumifsB "Production" "Maximum Output")
     (benchTrendCell "B32" industryMetrics.manufacturingCapacityUtilization)
     ("=IF(B32>" ++ jsNumToString industryMetrics.manufacturingCapacityUtilization.excellent ++
       ",\"Optimal capacity utilization\",IF(B32>" ++
       jsNumToString industryMetrics.manufacturingCapacityUtilization.good ++
       ",\"Good utilization\",IF(B32>" ++
       jsNumToString industryMetrics.manufacturingCapacityUtilization.fair ++
       ",\"Adequate utilization\",\"Underutilized capacity\")))"),
   reportRow4 st.t ("  " ++ st.t "accounting.customerRetention")
     ("=" ++ sumifsB "Sales" "Repeat Customers" ++ "/" ++
       sumifsB "Sales" "Total Customers")
     (benchTrendCell "B33" industryMetrics.serviceCustomerRetention)
     ("=IF(B33>" ++ jsNumToString industryMetrics.serviceCustomerRetention.excellent ++
       ",\"Strong customer loyalty\",IF(B33>" ++
       jsNumToString industryMetrics.serviceCustomerRetention.good ++
       ",\"Good retention\",IF(B33>" ++
       jsNumToString industryMetrics.serviceCustomerRetention.fair ++
       ",\"Adequate retention\",\"Poor customer retention\")))")]

/-- The evaluation of the `marketMetricsData` array literal
(Accounting.tsx lines 619–818).  Building row 30 (`capitalIntensity`) reads the
undeclared identifier `industryMetrics`, so the evaluation throws. -/
def marketMetricsData (st : AccState) : Except String (List Row) :=
  match industryMetricsLookup with
  | none => .error "ReferenceError: industryMetrics is not defined"
  | some m => .ok (marketMetricsRows st m)

/-- Resolution of the identifier `trendAnalysisData`: used at
Accounting.tsx line 1157 to build the first sheet, but declared nowhere in the
file either. -/
def trendAnalysisDataLookup : Option (List Row) := none

/-- The filename passed to `XLSX.writeFile` (Accounting.tsx line 1232). -/
def reportsFilename (st : AccState) : String :=
  "financial-reports-" ++ st.dateRange.fromDate ++ "-to-" ++ st.dateRange.toDate ++ ".xlsx"

/-- The workbook `handleExportReportsExcel` would write: its sheets (name,
rows) in append order (Accounting.tsx lines 1153–1232) and the output
filename. -/
structure ReportsWorkbook where
  sheets : List (String × List Row)
  filename : String

/-- `handleExportReportsExcel` (Accounting.tsx lines 181–1233): builds the data
arrays in declaration order, then assembles and writes the workbook.  The
`Except` tracks the JS exceptions: the `marketMetricsData` literal throws a
`ReferenceError` on the undeclared `industryMetrics` (line 797) before any
sheet is created, and — were that fixed — the workbook assembly would throw on
the undeclared `trendAnalysisData` (line 1157) before `XLSX.writeFile`
(line 1232) is reached. -/
def handleExportReportsExcel (st : AccState) : Except String ReportsWorkbook := do
  let tb := trialBalanceData st
  let pl := profitLossData st
  let bs := balanceSheetData st
  let cf := cashFlowData st
  let ia := industryAnalysisData st
  let fr := financialRatiosData st
  let mm ← marketMetricsData st
  let ta ← match trendAnalysisDataLookup with
    | none => Except.error "ReferenceError: trendAnalysisData is not defined"
    | some d => Except.ok d
  Except.ok
    { sheets :=
        [(st.t "accounting.trendAnalysis", ta),
         (st.t "accounting.trialBalance", tb),
         (st.t "accounting.profitAndLoss", pl),
         (st.t "accounting.balanceSheet", bs),
         (st.t "accounting.cashFlow", cf),
         (st.t "accounting.industryAnalysis", ia),
         (st.t "accounting.financialRatios", fr),
         (st.t "accounting.marketMetrics", mm)]
      filename := reportsFilename st }

/-! ## Concrete fixtures used by witnesses and counterexamples -/

/-- The identity translation function, used as a concrete `t`. -/
def trId : Tr := fun s => s

/-- An empty backend. -/
def backendA : Backend := ⟨[], [], []⟩

/-- A backend holding one ledger document. -/
def backendB : Backend :=
  ⟨[⟨"e1", "2024-01-01", "Cash", "Opening balance", 100, 0, "tenant1", 0⟩], [], []⟩

/-! ## Claims -/

/-- C10: for every render of `PrivateRoute`: while authentication state is
loading it renders only the spinner; when loading is finished and there is no
user it renders a replace-redirect to `/login`; and it renders its protected
children exactly when loading is false and the user is non-null — so an
unauthenticated visitor is never shown protected content. -/
theorem privateRoute_guards (loading : Bool) (user : Option User) :
    (loading = true → PrivateRoute loading user = .spinner) ∧
    (loading = false → user = none → PrivateRoute loading user = .redirect "/login" true) ∧
    (PrivateRoute loading user = .child ↔ loading = false ∧ user ≠ none) := by
  refine ⟨?_, ?_, ?_⟩
  · intro h; simp [PrivateRoute, h]
  · intro h h2; simp [PrivateRoute, h, h2]
  · cases loading <;> cases user <;> simp [PrivateRoute]

/-- Witness for C10: with loading finished and a signed-in user, the protected
children are rendered. -/
theorem privateRoute_guards_witness :
    PrivateRoute false (some ⟨"u1", some "tenant1"⟩) = .child :=
  (privateRoute_guards false (some ⟨"u1", some "tenant1"⟩)).2.2.mpr
    ⟨rfl, by simp⟩

/-- C7 counterexample: two backends with different stored data on which the
Dashboard render is identical — the Dashboard issues no backend query, so its
figures cannot differ with the backend data, contradicting the claim. -/
theorem dashboard_backend_counterexample :
    backendA ≠ backendB ∧ dashboardView backendA trId = dashboardView backendB trId := by
  refine ⟨?_, rfl⟩
  intro h
  have : backendA.ledgerEntries = backendB.ledgerEntries := by rw [h]
  simp [backendA, backendB] at this

/-- C7 amended: the Dashboard does not obtain its figures from backend
queries; the monthly income/expense rows, the expense categories and the
headline stats are constants fixed in the code, so renders against any two
backend states are identical. -/
theorem dashboard_renders_constants (db1 db2 : Backend) (tr : Tr) :
    dashboardView db1 tr = dashboardView db2 tr ∧
    (dashboardView db1 tr).monthlySummaryChart = monthlyData ∧
    (dashboardView db1 tr).incomeVsExpensesChart = monthlyData ∧
    (dashboardView db1 tr).expenseCategoriesChart = expenseData ∧
    (dashboardView db1 tr).revenueStat = "₹25,000" ∧
    (dashboardView db1 tr).expensesStat = "₹15,000" ∧
    (dashboardView db1 tr).profitStat = "₹10,000" ∧
    (dashboardView db1 tr).cashFlowStat = "₹5,000" :=
  ⟨rfl, rfl, rfl, rfl, rfl, rfl, rfl, rfl⟩

/-- C5: contrary to the claim, `handleExportReportsExcel` never runs to
completion: in every component state, building `marketMetricsData` reads the
identifier `industryMetrics` (Accounting.tsx line 797), which is declared
nowhere in the file, so the export throws a `ReferenceError` and
`XLSX.writeFile` is never reached. -/
theorem exportReports_always_throws (st : AccState) :
    handleExportReportsExcel st =
      .error "ReferenceError: industryMetrics is not defined" := rfl

/-- C6: the report data arrays of `handleExportReportsExcel` are static
display data: any two component states with the same translation function
yield identical arrays — none of them depends on the fetched ledger or
journal entries or on any form input — and only the output filename depends on
the selected date range. -/
theorem reportData_static (s1 s2 : AccState) (ht : s1.t = s2.t) :
    trialBalanceData s1 = trialBalanceData s2 ∧
    profitLossData s1 = profitLossData s2 ∧
    balanceSheetData s1 = balanceSheetData s2 ∧
    cashFlowData s1 = cashFlowData s2 ∧
    industryAnalysisData s1 = industryAnalysisData s2 ∧
    financialRatiosData s1 = financialRatiosData s2 ∧
    marketMetricsData s1 = marketMetricsData s2 ∧
    (∀ s3 s4 : AccState, s3.dateRange = s4.dateRange →
       reportsFilename s3 = reportsFilename s4) := by
  refine ⟨?_, ?_, ?_, ?_, ?_, ?_, ?_, ?_⟩
  · simp only [trialBalanceData, ht]
  · simp only [profitLossData, ht]
  · simp only [balanceSheetData, ht]
  · simp only [cashFlowData, ht]
  · simp only [industryAnalysisData, ht]
  · simp only [financialRatiosData, ht]
  · simp only [marketMetricsData, marketMetricsRows, ht]
  · intro s3 s4 h
    simp only [reportsFilename, h]

/-- A state of the Accounting page with no fetched data and a blank form. -/
def accStateA : AccState :=
  { t := trId
    user := some ⟨"u1", some "tenant1"⟩
    activeTab := "reports"
    ledgerEntries := []
    journalEntries := []
    loading := false
    showForm := false
    formData := ⟨"", "", "", 0, 0⟩
    dateRange := ⟨"2024-01-01", "2024-03-31"⟩ }

/-- The same page state after fetching a ledger entry and filling the form. -/
def accStateB : AccState :=
  { accStateA with
    ledgerEntries := [⟨"e1", "2024-01-01", "Cash", "Opening balance", 100, 0, "tenant1", 0⟩]
    showForm := true
    formData := ⟨"2024-02-02", "Sales", "Invoice 12", 0, 250⟩ }

/-- Witness for C6: the two concrete states differ in fetched entries and form
input but share `t`, and their trial-balance arrays coincide. -/
theorem reportData_static_witness :
    accStateA.t = accStateB.t ∧ trialBalanceData accStateA = trialBalanceData accStateB :=
  ⟨rfl, (reportData_static accStateA accStateB rfl).1⟩

/-- C1: tenant isolation of reads.  For an authenticated user, a successful
`fetchLedgerEntries`/`fetchJournalEntries` stores only documents whose
`tenantId` equals the user's tenant identifier, and a successful
`fetchInvoices` only documents whose `tenantId` equals the user's `uid`;
moreover two backend states that agree on the current tenant's documents (and
so differ only in other tenants' documents) produce identical fetch results. -/
theorem tenant_isolation_of_reads
    (db db1 db2 : Backend) (st : AccState) (sst : SalesState)
    (u : User) (tid : String)
    (hu : st.user = some u) (ht : u.tenantId = some tid) (hne : tid ≠ "")
    (v : User) (hv : sst.user = some v) (hvne : v.uid ≠ "") :
    (∀ e ∈ (fetchLedgerEntries (.ok ()) db st).1.ledgerEntries, e.tenantId = tid) ∧
    (∀ e ∈ (fetchJournalEntries (.ok ()) db st).1.journalEntries, e.tenantId = tid) ∧
    (∀ inv ∈ (fetchInvoices (.ok ()) db sst).1.invoices, inv.tenantId = v.uid) ∧
    (db1.ledgerEntries.filter (fun d => d.tenantId = tid) =
        db2.ledgerEntries.filter (fun d => d.tenantId = tid) →
      fetchLedgerEntries (.ok ()) db1 st = fetchLedgerEntries (.ok ()) db2 st) ∧
    (db1.journalEntries.filter (fun d => d.tenantId = tid) =
        db2.journalEntries.filter (fun d => d.tenantId = tid) →
      fetchJournalEntries (.ok ()) db1 st = fetchJournalEntries (.ok ()) db2 st) ∧
    (db1.invoices.filter (fun d => d.tenantId = v.uid) =
        db2.invoices.filter (fun d => d.tenantId = v.uid) →
      fetchInvoices (.ok ()) db1 sst = fetchInvoices (.ok ()) db2 sst) := by
  refine ⟨?_, ?_, ?_, ?_, ?_, ?_⟩
  · intro e he
    simp only [fetchLedgerEntries, hu, ht, hne, if_neg, ite_false] at he
    exact of_decide_eq_true (List.mem_filter.mp he).2
  · intro e he
    simp only [fetchJournalEntries, hu, ht, hne, if_neg, ite_false] at he
    exact of_decide_eq_true (List.mem_filter.mp he).2
  · intro inv hinv
    simp only [fetchInvoices, hv, hvne, if_neg, ite_false] at hinv
    exact of_decide_eq_true (List.mem_filter.mp hinv).2
  · intro h
    simp only [fetchLedgerEntries, hu, ht, hne, if_neg, ite_false, h]
  · intro h
    simp only [fetchJournalEntries, hu, ht, hne, if_neg, ite_false, h]
  · intro h
    simp only [fetchInvoices, hv, hvne, if_neg, ite_false, h]

/-- A ledger document of tenant `tenant1`. -/
def ledgerDocT1 : LedgerEntry :=
  ⟨"e1", "2024-01-01", "Cash", "Opening balance", 100, 0, "tenant1", 0⟩

/-- A ledger document of another tenant. -/
def ledgerDocT2 : LedgerEntry :=
  ⟨"e2", "2024-01-02", "Cash", "Other tenant", 55, 0, "tenant2", 0⟩

/-- An invoice document of the user with uid `u2`. -/
def invoiceDocU2 : Invoice :=
  ⟨"i1", "Acme", "2024-01-15", [⟨"Widget", 2, 50, 100⟩], 100, "draft", "u2", 0⟩

/-- A backend holding documents of two different tenants. -/
def backendC : Backend :=
  ⟨[ledgerDocT1, ledgerDocT2],
   [⟨"j1", "2024-01-03", "Adjustment", [⟨"Cash", 10, 0⟩], "tenant1", 0⟩],
   [invoiceDocU2]⟩

/-- A Sales page state with the user `u2` signed in. -/
def salesStateA : SalesState :=
  { t := trId
    user := some ⟨"u2", none⟩
    invoices := []
    loading := false
    showForm := false
    customerName := ""
    date := "2024-01-15"
    items := [freshItem] }

/-- Witness for C1: on the two-tenant backend, the authenticated fetch places
`ledgerDocT1` in state, and the theorem yields its tenant identifier. -/
theorem tenant_isolation_of_reads_witness :
    ledgerDocT1.tenantId = "tenant1" :=
  (tenant_isolation_of_reads backendC backendC backendC accStateA salesStateA
      ⟨"u1", some "tenant1"⟩ "tenant1" rfl rfl (by decide)
      ⟨"u2", none⟩ rfl (by decide)).1
    ledgerDocT1 (by decide)

/-- A Sales page state that is mid-session with no signed-in user
(`user` is `null`): the form state is filled, and Sales's `handleSubmit` has no
user guard. -/
def salesStateNoUser : SalesState :=
  { t := trId
    user := none
    invoices := []
    loading := false
    showForm := true
    customerName := "Acme"
    date := "2024-01-15"
    items := [⟨"Widget", 2, 50, 100⟩] }

/-- C2 counterexample: Sales's `handleSubmit` builds its `invoiceData` with
`tenantId: user?.uid` and no guard, so with no signed-in user the record handed
to `addDoc` has an undefined `tenantId` — the claim's "always present
(defined)" fails. -/
theorem persisted_tenantId_counterexample :
    (salesInvoiceWrite salesStateNoUser 0).tenantId = none := rfl

/-- C2 amended: every record Accounting's `handleSubmit` persists is a flat
record carrying `tenantId = user.tenantId`, the form's date and the debit and
credit amounts (the handler writes nothing when there is no user or the tenant
id is empty); the record Sales's `handleSubmit` hands to `addDoc` carries the
form's date and the summed `totalAmount`, and its `tenantId` is `user?.uid` —
defined and equal to the current user's uid whenever a user is signed in. -/
theorem persisted_records_carry_tenantId
    (docId : String) (now : Nat) (db : Backend) (st : AccState)
    (u : User) (tid : String)
    (hu : st.user = some u) (ht : u.tenantId = some tid) (hne : tid ≠ "")
    (sst : SalesState) (v : User) (hv : sst.user = some v) :
    (handleSubmit (.ok docId) now db st).1.ledgerEntries =
      db.ledgerEntries ++
        [{ id := docId, date := st.formData.date, account := st.formData.account,
           description := st.formData.description, debit := st.formData.debit,
           credit := st.formData.credit, tenantId := tid, createdAt := now }] ∧
    (salesInvoiceWrite sst now).tenantId = some v.uid ∧
    (salesInvoiceWrite sst now).date = sst.date ∧
    (salesInvoiceWrite sst now).totalAmount =
      sst.items.foldl (fun sum item => sum + item.amount) 0 := by
  refine ⟨?_, ?_, rfl, rfl⟩
  · simp only [handleSubmit, hu, ht, hne, if_neg, ite_false]
  · simp only [salesInvoiceWrite, hv, Option.map_some']

/-- Witness for C2 (amended): concrete submissions on both pages. -/
theorem persisted_records_carry_tenantId_witness :
    (handleSubmit (.ok "d1") 7 backendA accStateB).1.ledgerEntries =
      backendA.ledgerEntries ++
        [{ id := "d1", date := "2024-02-02", account := "Sales",
           description := "Invoice 12", debit := 0, credit := 250,
           tenantId := "tenant1", createdAt := 7 }] :=
  (persisted_records_carry_tenantId "d1" 7 backendA accStateB
      ⟨"u1", some "tenant1"⟩ "tenant1" rfl rfl (by decide)
      salesStateA ⟨"u2", none⟩ rfl).1

/-- C3: creating a ledger entry performs no invariant checking: for every form
input — the debit and credit amounts are unconstrained, so in particular when
they differ — Accounting's `handleSubmit` persists the entry to the backend and
appends it to the local `ledgerEntries` list, without any rejecting branch
(and without logging an error). -/
theorem ledger_submit_no_balance_check
    (docId : String) (now : Nat) (db : Backend) (st : AccState)
    (u : User) (tid : String)
    (hu : st.user = some u) (ht : u.tenantId = some tid) (hne : tid ≠ "") :
    (handleSubmit (.ok docId) now db st).1.ledgerEntries =
      db.ledgerEntries ++
        [{ id := docId, date := st.formData.date, account := st.formData.account,
           description := st.formData.description, debit := st.formData.debit,
           credit := st.formData.credit, tenantId := tid, createdAt := now }] ∧
    (handleSubmit (.ok docId) now db st).2.1.ledgerEntries =
      st.ledgerEntries ++
        [{ id := docId, date := st.formData.date, account := st.formData.account,
           description := st.formData.description, debit := st.formData.debit,
           credit := st.formData.credit, tenantId := tid, createdAt := now }] ∧
    (handleSubmit (.ok docId) now db st).2.2.1 = [] := by
  refine ⟨?_, ?_, ?_⟩ <;>
    simp only [handleSubmit, hu, ht, hne, if_neg, ite_false]

/-- Witness for C3: an unbalanced entry (debit 0, credit 250) is persisted. -/
theorem ledger_submit_no_balance_check_witness :
    (handleSubmit (.ok "d2") 7 backendA accStateB).2.1.ledgerEntries =
      accStateB.ledgerEntries ++
        [{ id := "d2", date := "2024-02-02", account := "Sales",
           description := "Invoice 12", debit := 0, credit := 250,
           tenantId := "tenant1", createdAt := 7 }] :=
  (ledger_submit_no_balance_check "d2" 7 backendA accStateB
      ⟨"u1", some "tenant1"⟩ "tenant1" rfl rfl (by decide)).2.1

/-- C4: when a backend call of `fetchLedgerEntries`, `fetchJournalEntries` or
`handleSubmit` fails, the error is caught and logged to the console as a
single `console.error` pair, exactly one request was issued (no retry), no
error propagates (the handler returns normally with these values), and the
component state — `ledgerEntries`, `journalEntries`, `formData`, `showForm`
and all the rest — is exactly the state from before the handler ran; the
backend is unchanged as well. -/
theorem backend_errors_caught_logged
    (e : String) (now : Nat) (db : Backend) (st : AccState)
    (u : User) (tid : String)
    (hu : st.user = some u) (ht : u.tenantId = some tid) (hne : tid ≠ "") :
    fetchLedgerEntries (.error e) db st =
      (st, [("Error fetching ledger entries:", e)],
       [.getDocsByTenant "ledgerEntries" tid]) ∧
    fetchJournalEntries (.error e) db st =
      (st, [("Error fetching journal entries:", e)],
       [.getDocsByTenant "journalEntries" tid]) ∧
    handleSubmit (.error e) now db st =
      (db, st, [("Error creating ledger entry:", e)], [.addDocTo "ledgerEntries"]) := by
  refine ⟨?_, ?_, ?_⟩ <;>
    simp only [fetchLedgerEntries, fetchJournalEntries, handleSubmit,
      hu, ht, hne, if_neg, ite_false]

/-- Witness for C4: a concrete failed fetch leaves the concrete state intact
and logs once. -/
theorem backend_errors_caught_logged_witness :
    fetchLedgerEntries (.error "network down") backendC accStateB =
      (accStateB, [("Error fetching ledger entries:", "network down")],
       [.getDocsByTenant "ledgerEntries" "tenant1"]) :=
  (backend_errors_caught_logged "network down" 0 backendC accStateB
      ⟨"u1", some "tenant1"⟩ "tenant1" rfl rfl (by decide)).1

/-- The line-item invariant of the Sales invoice form: every item's `amount`
equals its `quantity` times its `rate`. -/
def itemsInvariant (items : List InvoiceItem) : Prop :=
  ∀ it ∈ items, it.amount = it.quantity * it.rate

/-- `reduce((sum, item) => sum + item.amount, 0)` computes the sum of the
amounts. -/
theorem foldl_amount (l : List InvoiceItem) (a : Rat) :
    l.foldl (fun sum item => sum + item.amount) a =
      a + (l.map (fun it => it.amount)).sum := by
  induction l generalizing a with
  | nil => simp
  | cons x xs ih => simp [ih, add_assoc]

/-- Every item surviving `removeItem` was an item of the original list. -/
theorem mem_of_mem_removeItem {items : List InvoiceItem} {index : Nat}
    {it : InvoiceItem} (h : it ∈ removeItem items index) : it ∈ items := by
  simp only [removeItem, List.mem_map, List.mem_filter] at h
  obtain ⟨p, ⟨hp, -⟩, rfl⟩ := h
  have := List.mem_enum_iff_getElem?.mp hp
  exact List.getElem?_mem this

/-- C8: the invariant `amount = quantity * rate` holds for the initial item
and is preserved by `handleItemChange` (on any field — for `amount` itself the
trailing `amount:` property of the object literal wins, leaving the item
unchanged), by `addItem`, and by `removeItem`; consequently the `totalAmount`
persisted by Sales's `handleSubmit` equals the sum over all items of
`quantity * rate`, and equals `0` once the items list has been emptied. -/
theorem invoice_items_invariant :
    itemsInvariant [freshItem] ∧
    (∀ (items : List InvoiceItem) (index : Nat) (c : ItemChange)
        (items' : List InvoiceItem), itemsInvariant items →
        handleItemChange items index c = some items' → itemsInvariant items') ∧
    (∀ items : List InvoiceItem, itemsInvariant items →
        itemsInvariant (addItem items)) ∧
    (∀ (items : List InvoiceItem) (index : Nat), itemsInvariant items →
        itemsInvariant (removeItem items index)) ∧
    (∀ (sst : SalesState) (now : Nat), itemsInvariant sst.items →
        (salesInvoiceWrite sst now).totalAmount =
          (sst.items.map (fun it => it.quantity * it.rate)).sum) ∧
    (∀ (sst : SalesState) (now : Nat), sst.items = [] →
        (salesInvoiceWrite sst now).totalAmount = 0) := by
  refine ⟨?_, ?_, ?_, ?_, ?_, ?_⟩
  · intro it hit
    simp only [List.mem_singleton] at hit
    subst hit
    simp [freshItem]
  · intro items index c items' hinv hchange
    simp only [handleItemChange] at hchange
    cases hget : items.get? index with
    | none => rw [hget] at hchange; exact absurd hchange (by simp)
    | some old =>
      rw [hget] at hchange
      have hold : old ∈ items := List.get?_mem hget
      obtain rfl : items.set index (applyItemChange old c) = items' := by
        simpa using hchange
      intro it hit
      rcases List.mem_or_eq_of_mem_set hit with hmem | rfl
      · exact hinv it hmem
      · cases c with
        | description v => simpa [applyItemChange] using hinv old hold
        | quantity v => simp [applyItemChange, calculateAmount]
        | rate v => simp [applyItemChange, calculateAmount]
        | amount v => simpa [applyItemChange] using hinv old hold
  · intro items hinv it hit
    rcases List.mem_append.mp hit with hmem | hmem
    · exact hinv it hmem
    · simp only [List.mem_singleton] at hmem
      subst hmem
      simp [freshItem]
  · intro items index hinv it hit
    exact hinv it (mem_of_mem_removeItem hit)
  · intro sst now hinv
    simp only [salesInvoiceWrite, foldl_amount, zero_add]
    exact congrArg List.sum (List.map_congr_left fun it hit => hinv it hit)
  · intro sst now hempty
    simp [salesInvoiceWrite, hempty]

/-- Witness for C8: after changing the first item's quantity to `3` and its
rate to `4`, the invariant holds and a submission persists `totalAmount = 12`. -/
theorem invoice_items_invariant_witness :
    handleItemChange [freshItem] 0 (.quantity 3) = some [⟨"", 3, 0, 0⟩] ∧
    handleItemChange [⟨"", 3, 0, 0⟩] 0 (.rate 4) = some [⟨"", 3, 4, 12⟩] ∧
    (salesInvoiceWrite { salesStateA with items := [⟨"", 3, 4, 12⟩] } 0).totalAmount =
      ([(⟨"", 3, 4, 12⟩ : InvoiceItem)].map (fun it => it.quantity * it.rate)).sum :=
  ⟨by simp [handleItemChange, freshItem, applyItemChange, calculateAmount],
   by norm_num [handleItemChange, applyItemChange, calculateAmount],
   invoice_items_invariant.2.2.2.2.1
     { salesStateA with items := [⟨"", 3, 4, 12⟩] } 0
     (by intro it hit; simp only [List.mem_singleton] at hit; subst hit; norm_num)⟩

/-- C9: `handleExportLedgerExcel` exports exactly those ledger entries whose
date lies within the selected range inclusive of both endpoints
(`from <= date <= to`, via `Date` comparison of the ISO date strings), in the
order they appear in `ledgerEntries` (the exported rows are the rendering of a
sublist), with debit and credit rendered to two decimal places by `toFixed(2)`,
and leaves the component state untouched; `handleExportJournalExcel` applies
the same inclusive filter to the journal entries. -/
theorem export_inclusive_date_filter (st : AccState) :
    (handleExportLedgerExcel st).1 = st ∧
    (∀ row : Row, row ∈ (handleExportLedgerExcel st).2.data ↔
       ∃ e ∈ st.ledgerEntries,
         (dateLE st.dateRange.fromDate e.date = true ∧
          dateLE e.date st.dateRange.toDate = true) ∧
         row = [(st.t "accounting.date", e.date),
                (st.t "accounting.account", e.account),
                (st.t "accounting.description", e.description),
                (st.t "accounting.debit", toFixed2 e.debit),
                (st.t "accounting.credit", toFixed2 e.credit)]) ∧
    (∃ l : List LedgerEntry, l.Sublist st.ledgerEntries ∧
       (handleExportLedgerExcel st).2.data = l.map (ledgerExportRow st.t) ∧
       ∀ e ∈ st.ledgerEntries,
         dateLE st.dateRange.fromDate e.date = true →
         dateLE e.date st.dateRange.toDate = true → e ∈ l) ∧
    (handleExportJournalExcel st).1 = st ∧
    (∀ row : Row, row ∈ (handleExportJournalExcel st).2.data ↔
       ∃ e ∈ st.journalEntries,
         (dateLE st.dateRange.fromDate e.date = true ∧
          dateLE e.date st.dateRange.toDate = true) ∧
         row = journalExportRow st.t e) := by
  have hdata : (handleExportLedgerExcel st).2.data =
      (st.ledgerEntries.filter (fun e => inDateRange st.dateRange e.date)).map
        (ledgerExportRow st.t) := rfl
  have hjdata : (handleExportJournalExcel st).2.data =
      (st.journalEntries.filter (fun e => inDateRange st.dateRange e.date)).map
        (journalExportRow st.t) := rfl
  refine ⟨rfl, ?_, ?_, rfl, ?_⟩
  · intro row
    rw [hdata]
    constructor
    · intro h
      obtain ⟨e, he, rfl⟩ := List.mem_map.mp h
      have hf := List.mem_filter.mp he
      refine ⟨e, hf.1, ?_, rfl⟩
      simpa [inDateRange, dateLE, Bool.and_eq_true, decide_eq_true_eq] using hf.2
    · rintro ⟨e, he, ⟨h1, h2⟩, rfl⟩
      exact List.mem_map.mpr
        ⟨e, List.mem_filter.mpr ⟨he, by simp only [inDateRange, Bool.and_eq_true]; exact ⟨h1, h2⟩⟩, rfl⟩
  · refine ⟨st.ledgerEntries.filter (fun e => inDateRange st.dateRange e.date),
      List.filter_sublist _, hdata, ?_⟩
    intro e he h1 h2
    exact List.mem_filter.mpr ⟨he, by simp only [inDateRange, Bool.and_eq_true]; exact ⟨h1, h2⟩⟩
  · intro row
    rw [hjdata]
    constructor
    · intro h
      obtain ⟨e, he, rfl⟩ := List.mem_map.mp h
      have hf := List.mem_filter.mp he
      refine ⟨e, hf.1, ?_, rfl⟩
      simpa [inDateRange, dateLE, Bool.and_eq_true, decide_eq_true_eq] using hf.2
    · rintro ⟨e, he, ⟨h1, h2⟩, rfl⟩
      exact List.mem_map.mpr
        ⟨e, List.mem_filter.mpr ⟨he, by simp only [inDateRange, Bool.and_eq_true]; exact ⟨h1, h2⟩⟩, rfl⟩

/-- An Accounting state holding one entry inside and one entry before the
selected export range. -/
def exportState : AccState :=
  { accStateA with
    ledgerEntries := [ledgerDocT1, ⟨"e0", "2023-12-25", "Cash", "Last year", 9, 0, "tenant1", 0⟩] }

/-- Witness for C9: the entry dated `2024-01-01` — exactly the range's `from`
endpoint — is exported from the concrete state. -/
theorem export_inclusive_date_filter_witness :
    ledgerExportRow trId ledgerDocT1 ∈ (handleExportLedgerExcel exportState).2.data :=
  ((export_inclusive_date_filter exportState).2.1 (ledgerExportRow trId ledgerDocT1)).mpr
    ⟨ledgerDocT1, by decide, ⟨by decide, by decide⟩, rfl⟩

end FinNepal
